import Mathlib

/-!
Shallow embedding of the BoxModVape firmware core (src/BoxModVape.ino, v3.3),
together with the v3.1 variant (src/unnamed/part_000) where the two differ.

Modelling conventions:
* C/Arduino single-precision float arithmetic is modelled exactly over ℚ
  (the spec declares the numeric policy as real arithmetic with
  half-away-from-zero rounding on exit).
* `round` is `cround` (half away from zero), float-to-long conversion is
  `truncQ` (truncation toward zero), Arduino integer `map` is `mapA` with
  C truncating division, `constrain` is the Arduino macro verbatim.
* 16-bit `word` stores are modelled with `% 65536` (`Int.emod`).
* `millis()` is modelled as one time value per loop iteration, supplied in
  the iteration input; unsigned wrap-around is not modelled (times are ℕ
  and theorems assume monotone clocks through their hypotheses).
* `sqrtf (ohm * watt)` in the VariWatt branch is modelled by a parameter
  `q` supplied to the update; theorems that need its meaning carry the
  hypotheses `0 ≤ q` and `q * q = ohm * watt`.
* Hardware effects are modelled as state fields: `mosfet_high` (MOSFET
  drive line), `pwm_attached` (Timer1 PWM attached), `slide` (last
  DisplaySlide frame), `eeprom` (persisted record), `wake_interrupt`
  (falling-edge wake interrupt attached).
-/

namespace BoxModVape

/-- C `round` (half away from zero), as used by avr-libc, on exact rationals. -/
def cround (x : ℚ) : ℤ :=
  if 0 ≤ x then ⌊x + 1/2⌋ else -⌊(-x) + 1/2⌋

/-- C float-to-integer conversion: truncation toward zero. -/
def truncQ (x : ℚ) : ℤ :=
  if 0 ≤ x then ⌊x⌋ else -⌊-x⌋

/-- Arduino `constrain(amt, low, high)` macro:
`((amt)<(low)?(low):((amt)>(high)?(high):(amt)))`. -/
def constrain {α : Type} [LinearOrder α] (x lo hi : α) : α :=
  if x < lo then lo else if hi < x then hi else x

/-- Arduino integer `map(x, in_min, in_max, out_min, out_max)` with C long
division (truncation toward zero). -/
def mapA (x inMin inMax outMin outMax : ℤ) : ℤ :=
  Int.tdiv ((x - inMin) * (outMax - outMin)) (inMax - inMin) + outMin

/-- `Median(a, b, c)` from the source, branch for branch. -/
def medianW (a b c : ℤ) : ℤ :=
  if a ≤ b ∧ a ≤ c then (if b ≤ c then b else c)
  else if b ≤ a ∧ b ≤ c then (if a ≤ c then a else c)
  else (if a ≤ b then a else b)

/-- `RunningAverage(old_value, new_value, coef)`:
`old_value += round((new_value - old_value) * coef)`. -/
def runningAverage (old nw : ℤ) (coef : ℚ) : ℤ :=
  old + cround (((nw : ℚ) - (old : ℚ)) * coef)

/-- The `Modes` enumeration of v3.3. -/
inductive Mode
  | varivolt | variwatt | hell | amp | ohm | resist | vcc
  deriving DecidableEq, Repr

/-- Slides drawn through `DisplaySlide` (mode titles collapsed to one tag). -/
inductive Slide
  | lowb | bye | title | vape
  deriving DecidableEq, Repr

/-- The EEPROM record persisted by `GoodNight` in v3.3. -/
structure Eeprom where
  vcc_const : ℚ
  mode_byte : Mode
  volt : ℚ
  watt : ℤ
  amp : ℤ
  ohm : ℚ
  battery_resistance : ℚ
  deriving DecidableEq, Repr

/-- A 3-slot shift buffer (`voltage_buffer` / `PWM_buffer`). -/
structure Buf3 where
  a : ℤ
  b : ℤ
  c : ℤ
  deriving DecidableEq, Repr

/-- The firmware's global state (v3.3), plus modelled hardware effects. -/
structure VapeState where
  mode : Mode
  settings_mode : Bool
  last_fire_mode : Mode
  last_setting_mode : Mode
  amp : ℤ
  watt : ℤ
  volt : ℚ
  ohm : ℚ
  battery_resistance : ℚ
  vcc_const : ℚ
  voltage : ℤ
  prev_voltage : ℤ
  voltage_buffer : Buf3
  PWM_buffer : Buf3
  prev_PWM : ℤ
  PWM : ℤ
  voltage_drop : ℤ
  allow_fire : Bool
  sleeping : Bool
  f_b_state : Bool
  f_b_last_state : Bool
  f_b_debounce_time : ℕ
  fire_time : ℕ
  standby_time : ℕ
  values_update_time : ℕ
  mosfet_high : Bool
  pwm_attached : Bool
  slide : Option Slide
  eeprom : Eeprom
  wake_interrupt : Bool
  deriving DecidableEq, Repr

/-- `DisableAllFire()`: clear `allow_fire`, detach PWM, drive MOSFET LOW. -/
def disableAllFire (s : VapeState) : VapeState :=
  { s with allow_fire := false, pwm_attached := false, mosfet_high := false }

/-- `GoodNight()`: disarm, set `sleeping`, persist the settings to EEPROM,
attach the fire-button falling-edge wake interrupt, power down.
`watt` and `amp` are `int` globals written with `EEPROM.updateByte`, which
narrows them to a byte, so their persisted values are taken mod 256. -/
def goodNight (s : VapeState) : VapeState :=
  let s := disableAllFire s
  { s with
    sleeping := true,
    eeprom := ⟨s.vcc_const, s.last_fire_mode, s.volt, s.watt.emod 256,
               s.amp.emod 256, s.ohm, s.battery_resistance⟩,
    wake_interrupt := true }

/-- The `Modes operator++` of v3.3: fire cluster cycles VariVolt→VariWatt→Hell,
settings cluster cycles Amp→Ohm→Resist→Vcc. -/
def modeSucc (settings : Bool) (m : Mode) : Mode :=
  if settings = false then
    match m with
    | .varivolt => .variwatt
    | .variwatt => .hell
    | _ => .varivolt
  else
    match m with
    | .vcc => .amp
    | .varivolt => .variwatt
    | .variwatt => .hell
    | .hell => .amp
    | .amp => .ohm
    | .ohm => .resist
    | .resist => .vcc

/-- The C expression `voltage - voltage_drop` (`int` minus `word` on AVR):
the usual arithmetic conversions make it an unsigned 16-bit subtraction. -/
def wsub (a b : ℤ) : ℤ :=
  (a - b).emod 65536

/-- `ChangeMode()` (mode-button click). -/
def changeMode (now : ℕ) (s : VapeState) : VapeState :=
  let s := { s with standby_time := now }
  let s := { s with mode := modeSucc s.settings_mode s.mode }
  let s := if s.settings_mode = false then { s with last_fire_mode := s.mode }
           else { s with last_setting_mode := s.mode }
  { s with slide := some .title }

/-- `ChangeSettingsMode()` (mode-button double click). -/
def changeSettingsMode (now : ℕ) (s : VapeState) : VapeState :=
  let s := { s with standby_time := now }
  let s := if s.settings_mode = false then { s with last_fire_mode := s.mode }
           else { s with last_setting_mode := s.mode }
  let s := { s with settings_mode := !s.settings_mode }
  let s := if s.settings_mode = false then { s with mode := s.last_fire_mode }
           else { s with mode := s.last_setting_mode }
  { s with slide := some .title }

/-- `ReduceValue()` (down-button click, also re-fired every 100 ms by
`ReduceValueL` during a long press).  The steps are 0.05 V, 1 W, 1 A,
0.005 Ω, 0.001 Ω, 0.001; the `int - word` subtraction `voltage -
voltage_drop` is modelled with its C unsigned 16-bit semantics. -/
def reduceValue (now : ℕ) (s : VapeState) : VapeState :=
  let s :=
    match s.mode with
    | .varivolt =>
      if 0 < s.ohm then
        let v := s.volt - 1/20
        let v := (cround (v / (1/20)) : ℚ) * (1/20)
        { s with volt := constrain v 0 ((wsub s.voltage s.voltage_drop : ℚ) / 1000) }
      else { s with volt := 0 }
    | .variwatt =>
      if 0 < s.ohm then
        let w := s.watt - 1
        let w := cround ((w : ℚ) / 1) * 1
        let cap := cround ((wsub s.voltage s.voltage_drop : ℚ) ^ 2 / s.ohm / 1000000)
        { s with watt := constrain w 0 cap }
      else { s with watt := 0 }
    | .amp =>
      let a := s.amp - 1
      let a := cround ((a : ℚ) / 1) * 1
      { s with amp := constrain a 0 100 }
    | .ohm =>
      if 0 < s.amp then
        let o := s.ohm - 1/200
        let o := (cround (o / (1/200)) : ℚ) * (1/200)
        { s with ohm := constrain o (4200 / ((s.amp : ℚ) * 1000)) 1 }
      else { s with ohm := 0 }
    | .resist =>
      if 0 < s.amp then
        let r := s.battery_resistance - 1/1000
        let r := (cround (r / (1/1000)) : ℚ) * (1/1000)
        { s with battery_resistance := constrain r 0 (1/10) }
      else { s with battery_resistance := 0 }
    | .vcc =>
      let v := s.vcc_const - 1/1000
      let v := (cround (v / (1/1000)) : ℚ) * (1/1000)
      { s with vcc_const := constrain v 1 (6/5) }
    | .hell => s
  { s with standby_time := now }

/-- `IncreaseValue()` (up-button click, also re-fired every 100 ms by
`IncreaseValueL` during a long press). -/
def increaseValue (now : ℕ) (s : VapeState) : VapeState :=
  let s :=
    match s.mode with
    | .varivolt =>
      if 0 < s.ohm then
        let v := s.volt + 1/20
        let v := (cround (v / (1/20)) : ℚ) * (1/20)
        { s with volt := constrain v 0 ((wsub s.voltage s.voltage_drop : ℚ) / 1000) }
      else { s with volt := 0 }
    | .variwatt =>
      if 0 < s.ohm then
        let w := s.watt + 1
        let w := cround ((w : ℚ) / 1) * 1
        let cap := cround ((wsub s.voltage s.voltage_drop : ℚ) ^ 2 / s.ohm / 1000000)
        { s with watt := constrain w 0 cap }
      else { s with watt := 0 }
    | .amp =>
      let a := s.amp + 1
      let a := cround ((a : ℚ) / 1) * 1
      { s with amp := constrain a 0 100 }
    | .ohm =>
      if 0 < s.amp then
        let o := s.ohm + 1/200
        let o := (cround (o / (1/200)) : ℚ) * (1/200)
        { s with ohm := constrain o (4200 / ((s.amp : ℚ) * 1000)) 1 }
      else { s with ohm := 0 }
    | .resist =>
      if 0 < s.amp then
        let r := s.battery_resistance + 1/1000
        let r := (cround (r / (1/1000)) : ℚ) * (1/1000)
        { s with battery_resistance := constrain r 0 (1/10) }
      else { s with battery_resistance := 0 }
    | .vcc =>
      let v := s.vcc_const + 1/1000
      let v := (cround (v / (1/1000)) : ℚ) * (1/1000)
      { s with vcc_const := constrain v 1 (6/5) }
    | .hell => s
  { s with standby_time := now }

/-- Button callbacks dispatched by `CheckButtons()` during one iteration
(`SleepPuzzle`, a blocking routine, is modelled separately). -/
inductive Ev
  | modeClick | modeDouble | upClick | downClick
  deriving DecidableEq, Repr

/-- Dispatch one button callback. -/
def applyEv (now : ℕ) (s : VapeState) (e : Ev) : VapeState :=
  match e with
  | .modeClick => changeMode now s
  | .modeDouble => changeSettingsMode now s
  | .upClick => increaseValue now s
  | .downClick => reduceValue now s

/-- `AddPWM(value)`: shift the 3-slot PWM buffer and append a `word`. -/
def addPWM (s : VapeState) (value : ℤ) : VapeState :=
  { s with PWM_buffer := ⟨s.PWM_buffer.b, s.PWM_buffer.c, value.emod 65536⟩ }

/-- `GetPWM()`: median-of-3 of the PWM buffer, then EWMA with α = 0.1,
stored back into the `word` fields `prev_PWM` and `PWM`. -/
def getPWM (s : VapeState) : VapeState :=
  let p := (runningAverage s.prev_PWM
      (medianW s.PWM_buffer.a s.PWM_buffer.b s.PWM_buffer.c) (1/10)).emod 65536
  { s with prev_PWM := p, PWM := p }

/-- The mode `switch` of `loop()` (v3.3, lines 148-170) followed by
`PWM = GetPWM()`: the duty synthesizer.  `q` models the float value
`sqrt(ohm * watt)` computed in the VariWatt branch. -/
def synthStep (s : VapeState) (q : ℚ) : VapeState :=
  match s.mode with
  | .varivolt =>
    let volt1 := constrain s.volt 0 ((s.voltage : ℚ) / 1000)
    let drop := (cround (volt1 * s.battery_resistance * 1000
        / (s.ohm + s.battery_resistance))).emod 65536
    let raw := mapA (truncQ (volt1 * 1000)) 0 s.voltage 0 1023
    getPWM (addPWM { s with volt := volt1, voltage_drop := drop } raw)
  | .variwatt =>
    let watt1 := constrain s.watt 0
        (cround (((s.voltage : ℚ)) ^ 2 / s.ohm / 1000000))
    let drop := (cround (q * s.battery_resistance * 1000 / s.ohm)).emod 65536
    let raw := mapA (truncQ (q * 1000)) 0 s.voltage 0 1023
    getPWM (addPWM { s with watt := watt1, voltage_drop := drop } raw)
  | .hell =>
    let drop := (cround ((s.voltage : ℚ) * s.battery_resistance
        / (s.ohm + s.battery_resistance))).emod 65536
    getPWM { s with voltage_drop := drop }
  | _ =>
    getPWM { s with voltage_drop := 0 }

/-- Input of one awake `loop()` iteration: the iteration's `millis()` value,
the (active-low inverted) fire-button line `!digitalRead(FIRE_BUTTON_PIN)`,
the mV value produced by `ReadVCC()`, the modelled `sqrt(ohm * watt)`, and
the button callbacks fired by `CheckButtons()`. -/
structure LoopInput where
  now : ℕ
  fire_pressed : Bool
  sample : ℤ
  sqrt_val : ℚ
  events : List Ev
  deriving Repr

/-- The rate-limited block of `loop()` (v3.3, lines 145-170): refresh
`voltage` via `GetVoltage()` (shift buffer, median-of-3, EWMA α = 0.3),
then run the duty synthesizer. -/
def valuesStep (inp : LoopInput) (s : VapeState) : VapeState :=
  if 10 ≤ inp.now - s.values_update_time then
    let s := { s with values_update_time := inp.now }
    let nb : Buf3 := ⟨s.voltage_buffer.b, s.voltage_buffer.c, inp.sample.emod 65536⟩
    let pv := runningAverage s.prev_voltage (medianW nb.a nb.b nb.c) (3/10)
    let s := { s with voltage_buffer := nb, prev_voltage := pv, voltage := pv }
    synthStep s inp.sqrt_val
  else s

/-- Lines 175-177 of v3.3 `loop()`: restart the debounce timer whenever the
raw reading differs from the last raw reading. -/
def gateDebounce (s : VapeState) (r : Bool) (now : ℕ) : VapeState :=
  if r ≠ s.f_b_last_state then { s with f_b_debounce_time := now } else s

/-- Lines 178-186 of v3.3 `loop()`: once the level has held `T_deb`, commit
`f_b_state = f_b_reading`; the source then tests the just-assigned
`f_b_state == HIGH && ohm > 0` (written here directly on `r`) and arms. -/
def gateCommit (s : VapeState) (r : Bool) (now : ℕ) : VapeState :=
  if 100 ≤ now - s.f_b_debounce_time then
    if r ≠ s.f_b_state then
      if r = true ∧ 0 < s.ohm then
        { s with f_b_state := r, allow_fire := true, fire_time := now }
      else { s with f_b_state := r }
    else s
  else s

/-- Lines 187-191 of v3.3 `loop()`: `f_b_last_state = f_b_reading`, then
the immediate raw-release disarm `if (f_b_state && !f_b_last_state)`
(the just-assigned `f_b_last_state` is `r`). -/
def gateRelease (s : VapeState) (r : Bool) : VapeState :=
  if s.f_b_state = true ∧ r = false then
    disableAllFire { s with f_b_state := false, f_b_last_state := r }
  else { s with f_b_last_state := r }

/-- The fire-gate block of `loop()` (v3.3, lines 175-191): debounce commit,
arming guarded by `ohm > 0`, and the immediate raw-release disarm. -/
def gateStep (s : VapeState) (r : Bool) (now : ℕ) : VapeState :=
  gateRelease (gateCommit (gateDebounce s r now) r now) r

/-- The output-drive block of `loop()` (v3.3, lines 192-201). -/
def driveStep (s : VapeState) (now : ℕ) : VapeState :=
  if s.allow_fire = true then
    let s :=
      if (s.mode = .varivolt ∨ s.mode = .variwatt) ∧ 0 < s.PWM then
        { s with pwm_attached := true }
      else if s.mode = .hell then
        { s with mosfet_high := true }
      else s
    { s with standby_time := now }
  else s

/-- The burn-limit block of `loop()` (v3.3, lines 202-204). -/
def timeoutStep (s : VapeState) (now : ℕ) : VapeState :=
  if s.allow_fire = true ∧ 5000 ≤ now - s.fire_time then disableAllFire s else s

/-- The idle-timeout block of `loop()` (v3.3, lines 205-208). -/
def standbyStep (s : VapeState) (now : ℕ) : VapeState :=
  if 300000 ≤ now - s.standby_time then goodNight { s with slide := some .bye }
  else s

/-- The low-battery block of `loop()` (v3.3, lines 209-213). -/
def lowBattStep (s : VapeState) : VapeState :=
  if s.voltage < 2800 then goodNight { (disableAllFire s) with slide := some .lowb }
  else s

/-- Everything of one awake `loop()` iteration up to (excluding) the
low-battery check. -/
def preLowBatt (s : VapeState) (inp : LoopInput) : VapeState :=
  let s := inp.events.foldl (applyEv inp.now) s
  let s := valuesStep inp s
  let s := gateStep s inp.fire_pressed inp.now
  let s := driveStep s inp.now
  let s := timeoutStep s inp.now
  standbyStep s inp.now

/-- One awake iteration of `loop()` (v3.3, lines 141-213, `!sleeping`
branch); the sleeping branch delegates to `wakePuzzle`, modelled below. -/
def loopIter (s : VapeState) (inp : LoopInput) : VapeState :=
  lowBattStep (preLowBatt s inp)

/-- Debounce/counter state of the blocking puzzle while-loops
(`SleepPuzzle` / `WakePuzzle` share this shape). -/
structure PuzzleSt where
  state : Bool
  last : Bool
  deb : ℕ
  count : ℕ
  deriving DecidableEq, Repr

/-- One pass of the puzzle while-loop body on a raw pin sample `r` taken at
time `t`.  The puzzles read the raw, non-inverted pin level
(`digitalRead(FIRE_BUTTON_PIN)`), and count debounced transitions of
`f_b_state` to true. -/
def puzzleStep (st : PuzzleSt) (t : ℕ) (r : Bool) : PuzzleSt :=
  let st := if r ≠ st.last then { st with deb := t } else st
  let st :=
    if 100 ≤ t - st.deb then
      if r ≠ st.state then
        let st := { st with state := r }
        if st.state = true then { st with count := st.count + 1 } else st
      else st
    else st
  { st with last := r }

/-- The puzzle while-loop over a timed sample trace: a sample is processed
while its time is inside the 3 s `UNLOCK_TIME` window and the click counter
has not yet exceeded 4 (the loop exit condition of the source). -/
def puzzleRun (start : ℕ) (samples : List (ℕ × Bool)) (st : PuzzleSt) : PuzzleSt :=
  match samples with
  | [] => st
  | (t, r) :: rest =>
    if t - start < 3000 ∧ st.count ≤ 4 then puzzleRun start rest (puzzleStep st t r)
    else st

/-- `InitVoltage()` (v3.3): zero both filter pipelines, then refill the
3-slot voltage window by raw sampling.  Modelled for a fresh sample triple
`(a, b, c)` whose first sample is nonzero, so the do-while refill loop runs
exactly three times and `voltage = round((a + b + c) / 3)`. -/
def initVoltage (s : VapeState) (a b c : ℤ) : VapeState :=
  let a := a.emod 65536
  let b := b.emod 65536
  let c := c.emod 65536
  let v := cround (((a + b + c : ℤ) : ℚ) / 3)
  { s with
    voltage_buffer := ⟨a, b, c⟩,
    PWM_buffer := ⟨0, 0, 0⟩,
    voltage := v,
    prev_voltage := v,
    voltage_drop := 0,
    PWM := 0,
    prev_PWM := 0 }

/-- `WakePuzzle()` (v3.3, lines 348-394): the sleeping branch of `loop()`.
`samples` is the timed raw pin trace seen during the window, `(a, b, c)`
the fresh ADC samples consumed by `InitVoltage()` on wake, `endNow` the
`millis()` value at the final `standby_time = millis()`. -/
def wakePuzzle (s : VapeState) (start : ℕ) (samples : List (ℕ × Bool))
    (a b c : ℤ) (endNow : ℕ) : VapeState :=
  let p := puzzleRun start samples
    ⟨s.f_b_state, s.f_b_last_state, s.f_b_debounce_time, 0⟩
  let s := { s with f_b_state := p.state, f_b_last_state := p.last,
                    f_b_debounce_time := p.deb }
  if 4 < p.count then
    let s := { s with sleeping := false, mode := s.last_fire_mode,
                      settings_mode := false }
    let s := initVoltage s a b c
    { s with standby_time := endNow }
  else goodNight s

/-- `SleepPuzzle()` (v3.3, lines 305-346): fire-button double-click handler.
The local `sleeping` flag of the source is the commit decision; the click
counter starts at 2. -/
def sleepPuzzle (s : VapeState) (start : ℕ) (samples : List (ℕ × Bool)) : VapeState :=
  let s := disableAllFire s
  let p := puzzleRun start samples
    ⟨s.f_b_state, s.f_b_last_state, s.f_b_debounce_time, 2⟩
  let s := { s with f_b_state := p.state, f_b_last_state := p.last,
                    f_b_debounce_time := p.deb }
  if 4 < p.count then goodNight s else s

/-- A clean trace of `n` debounced button events for the puzzle loops,
starting at time 1000: event `k` is sampled high at `1000 + 400k` and
`1110 + 400k` (the debounce commits on the second sample) and low at
`1220 + 400k` and `1330 + 400k`. -/
def pressTrace (n : ℕ) : List (ℕ × Bool) :=
  (List.range n).flatMap fun k =>
    [(1000 + 400 * k, true), (1110 + 400 * k, true),
     (1220 + 400 * k, false), (1330 + 400 * k, false)]

/-- The VariVolt duty synthesis exactly as the specification words it
(§4.B): clamp `volt` to `[0, (voltage − voltage_drop)/1000]`, then
recompute `voltage_drop` and the raw duty from the clamped `volt`.
Stated over the same exact-rational semantics as the code model, for
comparison with `synthStep`. -/
def specVariVolt (voltage voltageDrop : ℤ) (ohm br volt : ℚ) : ℚ × ℤ × ℤ :=
  let volt1 := constrain volt 0 (((voltage - voltageDrop : ℤ) : ℚ) / 1000)
  let drop := cround (volt1 * br * 1000 / (ohm + br))
  let raw := cround (volt1 * 1000 * 1023 / (voltage : ℚ))
  (volt1, drop, raw)

/-- The VariVolt branch of the v3.1 `loop()` (src/unnamed/part_000, lines
140-145): clamp against `(voltage - voltage_drop)` (C unsigned 16-bit
subtraction), then drop and raw duty from the clamped value;
`BATTERY_RESISTANCE` is the compile-time constant 0.015. -/
def variVolt31 (voltage voltageDrop : ℤ) (ohm volt : ℚ) : ℚ × ℤ × ℤ :=
  let volt1 := constrain volt 0 ((wsub voltage voltageDrop : ℚ) / 1000)
  let drop := (cround (volt1 * (3/200) * 1000 / (ohm + 3/200))).emod 65536
  let raw := mapA (truncQ (volt1 * 1000)) 0 voltage 0 1023
  (volt1, drop, raw)

/-! ### Arithmetic facts about the translated helpers -/

theorem cround_nonneg {x : ℚ} (h : 0 ≤ x) : 0 ≤ cround x := by
  rw [cround, if_pos h]
  exact Int.floor_nonneg.mpr (by linarith)

theorem cround_le_int {x : ℚ} {n : ℤ} (h0 : 0 ≤ x) (h : x ≤ (n : ℚ)) :
    cround x ≤ n := by
  rw [cround, if_pos h0]
  have h2 : (x + 1/2 : ℚ) ≤ (n : ℚ) + 1/2 := by linarith
  calc ⌊(x + 1/2 : ℚ)⌋ ≤ ⌊((n : ℚ) + 1/2 : ℚ)⌋ := Int.floor_le_floor h2
    _ = n + ⌊(1/2 : ℚ)⌋ := Int.floor_int_add n (1/2 : ℚ)
    _ = n := by norm_num

theorem int_le_cround {x : ℚ} {n : ℤ} (hn : (n : ℚ) ≤ x) (h0 : x ≤ 0) :
    n ≤ cround x := by
  rcases eq_or_lt_of_le h0 with h | h
  · subst h
    have hz : cround 0 = 0 := by norm_num [cround]
    rw [hz]
    exact_mod_cast hn
  · rw [cround, if_neg (by linarith)]
    have h2 : (-x : ℚ) ≤ ((-n : ℤ) : ℚ) := by push_cast; linarith
    have := cround_le_int (x := -x) (n := -n) (by linarith) h2
    rw [cround, if_pos (by linarith : (0:ℚ) ≤ -x)] at this
    omega

theorem cround_nonpos {x : ℚ} (h : x ≤ 0) : cround x ≤ 0 := by
  rcases eq_or_lt_of_le h with h1 | h1
  · subst h1
    norm_num [cround]
  · rw [cround, if_neg (by linarith)]
    have : (0:ℚ) ≤ -x + 1/2 := by linarith
    have := Int.floor_nonneg.mpr this
    omega

theorem constrain_between {α : Type} [LinearOrder α] (x lo hi : α) (h : lo ≤ hi) :
    lo ≤ constrain x lo hi ∧ constrain x lo hi ≤ hi := by
  unfold constrain
  split_ifs with h1 h2
  · exact ⟨le_refl lo, h⟩
  · exact ⟨h, le_refl hi⟩
  · exact ⟨le_of_not_lt h1, le_of_not_lt h2⟩

theorem medianW_between {a b c lo hi : ℤ} (ha : lo ≤ a) (ha2 : a ≤ hi)
    (hb : lo ≤ b) (hb2 : b ≤ hi) :
    lo ≤ medianW a b c ∧ medianW a b c ≤ hi := by
  unfold medianW
  split_ifs <;> omega

theorem runningAverage_between (old nw : ℤ) (c : ℚ) (h0 : 0 ≤ c) (h1 : c ≤ 1) :
    min old nw ≤ runningAverage old nw c ∧ runningAverage old nw c ≤ max old nw := by
  unfold runningAverage
  rcases le_total old nw with h | h
  · have hd : (0 : ℚ) ≤ (nw : ℚ) - (old : ℚ) := by
      rw [sub_nonneg]
      exact_mod_cast h
    have hy0 : (0 : ℚ) ≤ ((nw : ℚ) - (old : ℚ)) * c := mul_nonneg hd h0
    have hy1 : ((nw : ℚ) - (old : ℚ)) * c ≤ ((nw - old : ℤ) : ℚ) := by
      push_cast
      nlinarith
    have hlow := cround_nonneg hy0
    have hhigh := cround_le_int hy0 hy1
    constructor
    · calc min old nw = old := min_eq_left h
        _ ≤ old + cround (((nw : ℚ) - (old : ℚ)) * c) := by omega
    · calc old + cround (((nw : ℚ) - (old : ℚ)) * c) ≤ old + (nw - old) := by omega
        _ = nw := by ring
        _ = max old nw := (max_eq_right h).symm
  · have hd : (nw : ℚ) - (old : ℚ) ≤ 0 := by
      rw [sub_nonpos]
      exact_mod_cast h
    have hy0 : ((nw : ℚ) - (old : ℚ)) * c ≤ 0 := mul_nonpos_of_nonpos_of_nonneg hd h0
    have hy1 : ((nw - old : ℤ) : ℚ) ≤ ((nw : ℚ) - (old : ℚ)) * c := by
      push_cast
      nlinarith
    have hlow := int_le_cround hy1 hy0
    have hhigh := cround_nonpos hy0
    constructor
    · calc min old nw = nw := min_eq_right h
        _ = old + (nw - old) := by ring
        _ ≤ old + cround (((nw : ℚ) - (old : ℚ)) * c) := by omega
    · calc old + cround (((nw : ℚ) - (old : ℚ)) * c) ≤ old := by omega
        _ = max old nw := (max_eq_left h).symm

theorem emod_eq_self_of_bounds {a : ℤ} (h0 : 0 ≤ a) (h1 : a < 65536) :
    a.emod 65536 = a :=
  Int.emod_eq_of_lt h0 h1

/-! ### Frame lemmas: fields each loop stage leaves untouched -/

theorem applyEv_frame (now : ℕ) (s : VapeState) (e : Ev) :
    (applyEv now s e).allow_fire = s.allow_fire ∧
    (applyEv now s e).f_b_state = s.f_b_state ∧
    (applyEv now s e).f_b_last_state = s.f_b_last_state ∧
    (applyEv now s e).fire_time = s.fire_time ∧
    (applyEv now s e).voltage = s.voltage ∧
    (applyEv now s e).sleeping = s.sleeping := by
  cases e <;>
    simp only [applyEv, changeMode, changeSettingsMode, increaseValue, reduceValue] <;>
    cases s.mode <;>
    split_ifs <;>
    simp

theorem eventsFold_frame (now : ℕ) (evs : List Ev) (s : VapeState) :
    (evs.foldl (applyEv now) s).allow_fire = s.allow_fire ∧
    (evs.foldl (applyEv now) s).f_b_state = s.f_b_state ∧
    (evs.foldl (applyEv now) s).f_b_last_state = s.f_b_last_state ∧
    (evs.foldl (applyEv now) s).fire_time = s.fire_time := by
  induction evs generalizing s with
  | nil => exact ⟨rfl, rfl, rfl, rfl⟩
  | cons e t ih =>
    obtain ⟨h1, h2, h3, h4, _, _⟩ := applyEv_frame now s e
    obtain ⟨g1, g2, g3, g4⟩ := ih (applyEv now s e)
    exact ⟨g1.trans h1, g2.trans h2, g3.trans h3, g4.trans h4⟩

theorem synthStep_frame (s : VapeState) (q : ℚ) :
    (synthStep s q).allow_fire = s.allow_fire ∧
    (synthStep s q).f_b_state = s.f_b_state ∧
    (synthStep s q).f_b_last_state = s.f_b_last_state ∧
    (synthStep s q).fire_time = s.fire_time ∧
    (synthStep s q).ohm = s.ohm ∧
    (synthStep s q).voltage = s.voltage ∧
    (synthStep s q).sleeping = s.sleeping := by
  simp only [synthStep, addPWM, getPWM]
  cases s.mode <;> simp

theorem valuesStep_frame (inp : LoopInput) (s : VapeState) :
    (valuesStep inp s).allow_fire = s.allow_fire ∧
    (valuesStep inp s).f_b_state = s.f_b_state ∧
    (valuesStep inp s).f_b_last_state = s.f_b_last_state ∧
    (valuesStep inp s).fire_time = s.fire_time ∧
    (valuesStep inp s).ohm = s.ohm ∧
    (valuesStep inp s).sleeping = s.sleeping := by
  unfold valuesStep
  split_ifs with h
  · obtain ⟨h1, h2, h3, h4, h5, _, h7⟩ := synthStep_frame
      { s with values_update_time := inp.now,
               voltage_buffer := ⟨s.voltage_buffer.b, s.voltage_buffer.c,
                                  inp.sample.emod 65536⟩,
               prev_voltage := runningAverage s.prev_voltage
                 (medianW s.voltage_buffer.b s.voltage_buffer.c
                   (inp.sample.emod 65536)) (3/10),
               voltage := runningAverage s.prev_voltage
                 (medianW s.voltage_buffer.b s.voltage_buffer.c
                   (inp.sample.emod 65536)) (3/10) } inp.sqrt_val
    exact ⟨h1, h2, h3, h4, h5, h7⟩
  · exact ⟨rfl, rfl, rfl, rfl, rfl, rfl⟩

theorem gateDebounce_proj (s : VapeState) (r : Bool) (now : ℕ) :
    (gateDebounce s r now).ohm = s.ohm ∧
    (gateDebounce s r now).voltage = s.voltage ∧
    (gateDebounce s r now).sleeping = s.sleeping ∧
    (gateDebounce s r now).allow_fire = s.allow_fire ∧
    (gateDebounce s r now).f_b_state = s.f_b_state ∧
    (gateDebounce s r now).fire_time = s.fire_time := by
  unfold gateDebounce
  split_ifs <;> simp

theorem gateCommit_proj (s : VapeState) (r : Bool) (now : ℕ) :
    (gateCommit s r now).ohm = s.ohm ∧
    (gateCommit s r now).voltage = s.voltage ∧
    (gateCommit s r now).sleeping = s.sleeping := by
  unfold gateCommit
  split_ifs <;> simp

theorem gateRelease_proj (s : VapeState) (r : Bool) :
    (gateRelease s r).ohm = s.ohm ∧
    (gateRelease s r).voltage = s.voltage ∧
    (gateRelease s r).sleeping = s.sleeping := by
  unfold gateRelease disableAllFire
  split_ifs <;> simp

theorem gateStep_frame (s : VapeState) (r : Bool) (now : ℕ) :
    (gateStep s r now).ohm = s.ohm ∧
    (gateStep s r now).voltage = s.voltage ∧
    (gateStep s r now).sleeping = s.sleeping := by
  unfold gateStep
  obtain ⟨d1, d2, d3, _, _, _⟩ := gateDebounce_proj s r now
  obtain ⟨c1, c2, c3⟩ := gateCommit_proj (gateDebounce s r now) r now
  obtain ⟨r1, r2, r3⟩ := gateRelease_proj (gateCommit (gateDebounce s r now) r now) r
  exact ⟨r1.trans (c1.trans d1), r2.trans (c2.trans d2), r3.trans (c3.trans d3)⟩

theorem gateCommit_arm (s : VapeState) (r : Bool) (now : ℕ)
    (h : (gateCommit s r now).allow_fire = true) :
    s.allow_fire = true ∨ 0 < s.ohm := by
  unfold gateCommit at h
  split_ifs at h <;> simp_all

theorem gateRelease_disarm (s : VapeState) (r : Bool)
    (h : (gateRelease s r).allow_fire = true) : s.allow_fire = true := by
  unfold gateRelease disableAllFire at h
  split_ifs at h
  all_goals simp_all

/-- The gate can only newly arm when `ohm > 0` held at its guard. -/
theorem gateStep_arm (s : VapeState) (r : Bool) (now : ℕ)
    (h : s.allow_fire = false) (h2 : (gateStep s r now).allow_fire = true) :
    0 < s.ohm := by
  unfold gateStep at h2
  obtain ⟨_, _, _, d4, _, _⟩ := gateDebounce_proj s r now
  rcases gateCommit_arm _ _ _ (gateRelease_disarm _ _ h2) with hc | hc
  · rw [d4, h] at hc
    exact absurd hc (by simp)
  · rwa [(gateDebounce_proj s r now).1] at hc

theorem gateCommit_stable (s : VapeState) (r : Bool) (now : ℕ)
    (h : s.f_b_state = r) : gateCommit s r now = s := by
  unfold gateCommit
  split_ifs <;> simp_all

theorem gateRelease_keep (s : VapeState) (r : Bool) (h : s.f_b_state = r) :
    (gateRelease s r).allow_fire = s.allow_fire ∧
    (gateRelease s r).fire_time = s.fire_time := by
  unfold gateRelease disableAllFire
  split_ifs <;> simp_all

/-- With the debounced level already equal to the raw reading, the gate
changes neither `allow_fire` nor `fire_time`. -/
theorem gateStep_stable (s : VapeState) (r : Bool) (now : ℕ)
    (h : s.f_b_state = r) :
    (gateStep s r now).allow_fire = s.allow_fire ∧
    (gateStep s r now).fire_time = s.fire_time := by
  unfold gateStep
  obtain ⟨_, _, _, d4, d5, d6⟩ := gateDebounce_proj s r now
  rw [gateCommit_stable _ _ _ (d5.trans h)]
  obtain ⟨k1, k2⟩ := gateRelease_keep (gateDebounce s r now) r (d5.trans h)
  exact ⟨k1.trans d4, k2.trans d6⟩

theorem driveStep_frame (s : VapeState) (now : ℕ) :
    (driveStep s now).allow_fire = s.allow_fire ∧
    (driveStep s now).fire_time = s.fire_time ∧
    (driveStep s now).ohm = s.ohm ∧
    (driveStep s now).voltage = s.voltage ∧
    (driveStep s now).sleeping = s.sleeping := by
  unfold driveStep
  split_ifs <;> simp

theorem timeoutStep_frame (s : VapeState) (now : ℕ) :
    (timeoutStep s now).ohm = s.ohm ∧
    (timeoutStep s now).voltage = s.voltage ∧
    (timeoutStep s now).sleeping = s.sleeping := by
  unfold timeoutStep disableAllFire
  split_ifs <;> simp

theorem timeoutStep_keeps_disarmed (s : VapeState) (now : ℕ)
    (h : (timeoutStep s now).allow_fire = true) : s.allow_fire = true := by
  unfold timeoutStep disableAllFire at h
  split_ifs at h
  all_goals simp_all

/-- The burn-limit check disarms any armed state whose timer is expired. -/
theorem timeoutStep_fires (s : VapeState) (now : ℕ)
    (h : s.allow_fire = true) (h2 : 5000 ≤ now - s.fire_time) :
    (timeoutStep s now).allow_fire = false := by
  unfold timeoutStep disableAllFire
  rw [if_pos ⟨h, h2⟩]

theorem standbyStep_cases (s : VapeState) (now : ℕ) :
    standbyStep s now = s ∨
    ((standbyStep s now).allow_fire = false ∧
     (standbyStep s now).ohm = s.ohm ∧
     (standbyStep s now).voltage = s.voltage) := by
  unfold standbyStep goodNight disableAllFire
  split_ifs
  · right
    exact ⟨rfl, rfl, rfl⟩
  · left
    rfl

theorem lowBattStep_cases (s : VapeState) :
    lowBattStep s = s ∨
    ((lowBattStep s).allow_fire = false ∧ (lowBattStep s).ohm = s.ohm) := by
  unfold lowBattStep goodNight disableAllFire
  split_ifs
  · right
    exact ⟨rfl, rfl⟩
  · left
    rfl

/-- After the low-battery check, an armed state is never below
`BATTERY_MIN`. -/
theorem lowBattStep_voltage (s : VapeState)
    (h : (lowBattStep s).allow_fire = true) :
    2800 ≤ (lowBattStep s).voltage := by
  unfold lowBattStep goodNight disableAllFire at h ⊢
  split_ifs at h ⊢ with hv
  exact le_of_not_lt hv

/-- `preLowBatt` unfolded to the stage composition. -/
theorem preLowBatt_def (s : VapeState) (inp : LoopInput) :
    preLowBatt s inp =
      standbyStep
        (timeoutStep
          (driveStep
            (gateStep (valuesStep inp (inp.events.foldl (applyEv inp.now) s))
              inp.fire_pressed inp.now)
            inp.now)
          inp.now)
        inp.now := rfl

/-! ### Concrete states used by counterexamples and witnesses -/

/-- A neutral fully-concrete state to build counterexample states from. -/
def baseState : VapeState where
  mode := .varivolt
  settings_mode := false
  last_fire_mode := .varivolt
  last_setting_mode := .amp
  amp := 30
  watt := 0
  volt := 0
  ohm := 1/2
  battery_resistance := 3/200
  vcc_const := 11/10
  voltage := 4000
  prev_voltage := 4000
  voltage_buffer := ⟨4000, 4000, 4000⟩
  PWM_buffer := ⟨0, 0, 0⟩
  prev_PWM := 0
  PWM := 0
  voltage_drop := 0
  allow_fire := false
  sleeping := false
  f_b_state := false
  f_b_last_state := false
  f_b_debounce_time := 0
  fire_time := 0
  standby_time := 1000
  values_update_time := 995
  mosfet_high := false
  pwm_attached := false
  slide := none
  eeprom := ⟨0, .varivolt, 0, 0, 0, 0, 0⟩
  wake_interrupt := false

/-- C1 counterexample start state: Ohm settings mode with `amp = 0` but a
positive coil value left over, battery healthy. -/
def c1state : VapeState :=
  { baseState with mode := .ohm, settings_mode := true, amp := 0 }

/-- Iteration 1: fire button goes down at t = 1000 (starts the debounce). -/
def c1i1 : LoopInput := ⟨1000, true, 4000, 0, []⟩

/-- Iteration 2: fire still held at t = 1100; the debounce commits and the
gate arms (`ohm = 0.5 > 0`). -/
def c1i2 : LoopInput := ⟨1100, true, 4000, 0, []⟩

/-- Iteration 3: fire still held at t = 1200; a down-button click edits the
Ohm set-point, and `amp = 0` forces `ohm` to 0 while armed. -/
def c1i3 : LoopInput := ⟨1200, true, 4000, 0, [.downClick]⟩

/-- C1 trace state after iteration 1 (debounce started). -/
def c1s1 : VapeState :=
  { c1state with f_b_last_state := true, f_b_debounce_time := 1000 }

/-- C1 trace state after iteration 2 (armed with `ohm = 0.5`). -/
def c1s2 : VapeState :=
  { c1s1 with allow_fire := true, f_b_state := true, fire_time := 1100,
              standby_time := 1100, values_update_time := 1100 }

/-- C1 trace state after iteration 3 (`ohm` edited to 0 while still armed). -/
def c1s3 : VapeState :=
  { c1s2 with ohm := 0, standby_time := 1200, values_update_time := 1200 }

set_option maxHeartbeats 1000000 in
theorem c1_step1 : loopIter c1state c1i1 = c1s1 := by
  norm_num [loopIter, preLowBatt, lowBattStep, standbyStep, timeoutStep, driveStep,
    gateStep, gateRelease, gateCommit, gateDebounce, valuesStep, synthStep, getPWM,
    addPWM, applyEv, constrain, cround, medianW, runningAverage,
    goodNight, disableAllFire, c1state, c1i1, c1s1, baseState]

set_option maxHeartbeats 1000000 in
theorem c1_step2 : loopIter c1s1 c1i2 = c1s2 := by
  norm_num [loopIter, preLowBatt, lowBattStep, standbyStep, timeoutStep, driveStep,
    gateStep, gateRelease, gateCommit, gateDebounce, valuesStep, synthStep, getPWM,
    addPWM, applyEv, constrain, cround, medianW, runningAverage,
    goodNight, disableAllFire, c1state, c1i2, c1s1, c1s2, baseState,
    show Mode.ohm ≠ Mode.hell from fun h => nomatch h,
    show Mode.ohm ≠ Mode.varivolt from fun h => nomatch h,
    show Mode.ohm ≠ Mode.variwatt from fun h => nomatch h]

set_option maxHeartbeats 1000000 in
theorem c1_step3 : loopIter c1s2 c1i3 = c1s3 := by
  norm_num [loopIter, preLowBatt, lowBattStep, standbyStep, timeoutStep, driveStep,
    gateStep, gateRelease, gateCommit, gateDebounce, valuesStep, synthStep, getPWM,
    addPWM, applyEv, reduceValue, constrain, cround, medianW, runningAverage,
    goodNight, disableAllFire, c1state, c1i3, c1s1, c1s2, c1s3, baseState,
    show Mode.ohm ≠ Mode.hell from fun h => nomatch h,
    show Mode.ohm ≠ Mode.varivolt from fun h => nomatch h,
    show Mode.ohm ≠ Mode.variwatt from fun h => nomatch h]

/-- C1 is falsified as stated: the main loop reaches an iteration-boundary
state with `allow_fire = true` while `ohm = 0` (arm with `ohm = 0.5`, then
edit `ohm` to 0 via a down-click in Ohm mode with `amp = 0`). -/
theorem c1_counterexample :
    (loopIter (loopIter (loopIter c1state c1i1) c1i2) c1i3).allow_fire = true ∧
    (loopIter (loopIter (loopIter c1state c1i1) c1i2) c1i3).ohm = 0 := by
  rw [c1_step1, c1_step2, c1_step3]
  exact ⟨rfl, rfl⟩

/-- C1 (amended): at every awake main-loop iteration boundary,
`allow_fire = true` implies `voltage ≥ BATTERY_MIN` (2800 mV), and an
iteration can switch `allow_fire` from false to true only leaving
`ohm > 0`; `ohm` may however later be edited to 0 while `allow_fire`
remains true, as the counterexample exhibits. -/
theorem c1_gate_invariant (s : VapeState) (inp : LoopInput) :
    ((loopIter s inp).allow_fire = true → 2800 ≤ (loopIter s inp).voltage) ∧
    (s.allow_fire = false → (loopIter s inp).allow_fire = true →
      0 < (loopIter s inp).ohm) := by
  constructor
  · exact fun h => lowBattStep_voltage _ h
  · intro h0 h
    rw [loopIter] at h ⊢
    rcases lowBattStep_cases (preLowBatt s inp) with hc | ⟨hc, _⟩
    swap
    · rw [hc] at h
      exact absurd h (by simp)
    rw [hc] at h ⊢
    rw [preLowBatt_def] at h ⊢
    rcases standbyStep_cases
        (timeoutStep (driveStep (gateStep (valuesStep inp
          (inp.events.foldl (applyEv inp.now) s)) inp.fire_pressed inp.now)
          inp.now) inp.now) inp.now with hs | ⟨hs, _⟩
    swap
    · rw [hs] at h
      exact absurd h (by simp)
    rw [hs] at h ⊢
    have h3 := timeoutStep_keeps_disarmed _ _ h
    obtain ⟨ht1, _, _⟩ := timeoutStep_frame (driveStep (gateStep (valuesStep inp
      (inp.events.foldl (applyEv inp.now) s)) inp.fire_pressed inp.now) inp.now)
      inp.now
    obtain ⟨hd1, _, hd3, _, _⟩ := driveStep_frame (gateStep (valuesStep inp
      (inp.events.foldl (applyEv inp.now) s)) inp.fire_pressed inp.now) inp.now
    rw [hd1] at h3
    have hva : (valuesStep inp (inp.events.foldl (applyEv inp.now) s)).allow_fire
        = false := by
      rw [(valuesStep_frame inp _).1, (eventsFold_frame inp.now inp.events s).1, h0]
    have hohm := gateStep_arm _ inp.fire_pressed inp.now hva h3
    obtain ⟨hg1, _, _⟩ := gateStep_frame (valuesStep inp
      (inp.events.foldl (applyEv inp.now) s)) inp.fire_pressed inp.now
    rw [ht1, hd3, hg1]
    exact hohm

/-- Witness for C1's amended invariant, at the arming iteration of the
counterexample trace. -/
theorem c1_witness :
    2800 ≤ (loopIter (loopIter c1state c1i1) c1i2).voltage ∧
    0 < (loopIter (loopIter c1state c1i1) c1i2).ohm := by
  have hthm := c1_gate_invariant (loopIter c1state c1i1) c1i2
  have harm : (loopIter (loopIter c1state c1i1) c1i2).allow_fire = true := by
    rw [c1_step1, c1_step2]
    rfl
  have hdis : (loopIter c1state c1i1).allow_fire = false := by
    rw [c1_step1]
    rfl
  exact ⟨hthm.1 harm, hthm.2 hdis harm⟩

/-! ### C2: duty-synthesis output bounds -/

theorem pwmFilter_bounds (prev m : ℤ)
    (hp : 0 ≤ prev) (hp2 : prev ≤ 1023) (hm : 0 ≤ m) (hm2 : m ≤ 1023) :
    0 ≤ (runningAverage prev m (1/10)).emod 65536 ∧
    (runningAverage prev m (1/10)).emod 65536 ≤ 1023 := by
  obtain ⟨hlo, hhi⟩ := runningAverage_between prev m (1/10)
    (by norm_num) (by norm_num)
  have h0 : 0 ≤ runningAverage prev m (1/10) := le_trans (le_min hp hm) hlo
  have h1 : runningAverage prev m (1/10) ≤ 1023 := le_trans hhi (max_le hp2 hm2)
  rw [emod_eq_self_of_bounds h0 (by omega)]
  exact ⟨h0, h1⟩

theorem drop_word_bounds {x : ℚ} {V : ℤ} (hx0 : 0 ≤ x) (hxV : x ≤ (V : ℚ))
    (hV2 : V ≤ 32767) :
    0 ≤ (cround x).emod 65536 ∧ (cround x).emod 65536 ≤ V := by
  have h0 := cround_nonneg hx0
  have h1 := cround_le_int hx0 hxV
  rw [emod_eq_self_of_bounds h0 (by omega)]
  exact ⟨h0, h1⟩

theorem varivolt_drop_arg_bounds (V : ℤ) (ohm br volt : ℚ) (hV : 0 < V)
    (ho : 0 ≤ ohm) (hb : 0 ≤ br) (hob : 0 < ohm + br) :
    0 ≤ constrain volt 0 ((V : ℚ) / 1000) * br * 1000 / (ohm + br) ∧
    constrain volt 0 ((V : ℚ) / 1000) * br * 1000 / (ohm + br) ≤ (V : ℚ) := by
  have hVQ : (0 : ℚ) < (V : ℚ) := by exact_mod_cast hV
  have hV' : (0 : ℚ) ≤ (V : ℚ) / 1000 := by positivity
  obtain ⟨hc0, hc1⟩ := constrain_between volt 0 ((V : ℚ) / 1000) hV'
  constructor
  · exact div_nonneg (by nlinarith) hob.le
  · rw [div_le_iff₀ hob]
    nlinarith [mul_nonneg (sub_nonneg.mpr hc1) hb, mul_nonneg hVQ.le ho]

theorem hell_drop_arg_bounds (V : ℤ) (ohm br : ℚ) (hV : 0 < V)
    (ho : 0 ≤ ohm) (hb : 0 ≤ br) (hob : 0 < ohm + br) :
    0 ≤ (V : ℚ) * br / (ohm + br) ∧ (V : ℚ) * br / (ohm + br) ≤ (V : ℚ) := by
  have hVQ : (0 : ℚ) < (V : ℚ) := by exact_mod_cast hV
  constructor
  · exact div_nonneg (mul_nonneg hVQ.le hb) hob.le
  · rw [div_le_iff₀ hob]
    nlinarith [mul_nonneg hVQ.le ho]

/-- C2 (amended): from an admissible state (positive 16-bit voltage,
non-negative resistances with `ohm + batt_res > 0`, PWM filter state within
[0, 1023]), one duty-synthesis update (mode switch plus PWM filter) leaves
`pwm ∈ [0, 1023]` and `voltage_drop ≥ 0` in every mode, and
`voltage_drop ≤ voltage` in every mode except VariWatt — where the claimed
bound `voltage_drop ≤ voltage` fails, see the counterexample. -/
theorem c2_duty_bounds (s : VapeState) (q : ℚ)
    (hv0 : 0 < s.voltage) (hv1 : s.voltage ≤ 32767)
    (ho : 0 ≤ s.ohm) (hb : 0 ≤ s.battery_resistance)
    (hob : 0 < s.ohm + s.battery_resistance)
    (hba : 0 ≤ s.PWM_buffer.a) (hba2 : s.PWM_buffer.a ≤ 1023)
    (hbb : 0 ≤ s.PWM_buffer.b) (hbb2 : s.PWM_buffer.b ≤ 1023)
    (hbc : 0 ≤ s.PWM_buffer.c) (hbc2 : s.PWM_buffer.c ≤ 1023)
    (hpp : 0 ≤ s.prev_PWM) (hpp2 : s.prev_PWM ≤ 1023) :
    (0 ≤ (synthStep s q).PWM ∧ (synthStep s q).PWM ≤ 1023) ∧
    0 ≤ (synthStep s q).voltage_drop ∧
    (s.mode ≠ .variwatt → (synthStep s q).voltage_drop ≤ s.voltage) := by
  cases hm : s.mode
  case varivolt =>
    simp only [synthStep, hm, addPWM, getPWM]
    obtain ⟨hx0, hxV⟩ := varivolt_drop_arg_bounds s.voltage s.ohm
      s.battery_resistance s.volt hv0 ho hb hob
    obtain ⟨hd0, hd1⟩ := drop_word_bounds hx0 hxV hv1
    obtain ⟨hmd0, hmd1⟩ := medianW_between (c := (mapA
      (truncQ (constrain s.volt 0 ((s.voltage : ℚ) / 1000) * 1000)) 0 s.voltage 0
      1023).emod 65536) hbb hbb2 hbc hbc2
    obtain ⟨hq0, hq1⟩ := pwmFilter_bounds s.prev_PWM _ hpp hpp2 hmd0 hmd1
    exact ⟨⟨hq0, hq1⟩, hd0, fun _ => hd1⟩
  case variwatt =>
    simp only [synthStep, hm, addPWM, getPWM]
    refine ⟨?_, ?_, fun hc => absurd rfl hc⟩
    · obtain ⟨hmd0, hmd1⟩ := medianW_between (c := (mapA (truncQ (q * 1000)) 0
        s.voltage 0 1023).emod 65536) hbb hbb2 hbc hbc2
      obtain ⟨hq0, hq1⟩ := pwmFilter_bounds s.prev_PWM _ hpp hpp2 hmd0 hmd1
      exact ⟨hq0, hq1⟩
    · exact Int.emod_nonneg _ (by norm_num)
  case hell =>
    simp only [synthStep, hm, getPWM]
    obtain ⟨hx0, hxV⟩ := hell_drop_arg_bounds s.voltage s.ohm
      s.battery_resistance hv0 ho hb hob
    obtain ⟨hd0, hd1⟩ := drop_word_bounds hx0 hxV hv1
    obtain ⟨hmd0, hmd1⟩ := medianW_between (c := s.PWM_buffer.c) hba hba2 hbb hbb2
    have hmd1' : medianW s.PWM_buffer.a s.PWM_buffer.b s.PWM_buffer.c ≤ 1023 := by
      obtain ⟨_, h⟩ := medianW_between (c := s.PWM_buffer.c) hba hba2 hbb hbb2
      exact h
    obtain ⟨hq0, hq1⟩ := pwmFilter_bounds s.prev_PWM _ hpp hpp2 hmd0 hmd1
    exact ⟨⟨hq0, hq1⟩, hd0, fun _ => hd1⟩
  all_goals
    simp only [synthStep, hm, getPWM]
    obtain ⟨hmd0, hmd1⟩ := medianW_between (c := s.PWM_buffer.c) hba hba2 hbb hbb2
    obtain ⟨hq0, hq1⟩ := pwmFilter_bounds s.prev_PWM _ hpp hpp2 hmd0 hmd1
    exact ⟨⟨hq0, hq1⟩, le_refl 0, fun _ => hv0.le⟩

/-- C2 counterexample state: VariWatt at its own watt cap with a small coil
and the maximal admissible internal resistance. -/
def c2state : VapeState :=
  { baseState with mode := .variwatt, ohm := 1/25, battery_resistance := 1/10,
                   watt := 400 }

/-- C2 is falsified as stated: in VariWatt with `voltage = 4000`,
`ohm = 0.04`, `batt_res = 0.1` and `watt = 400` (the clamp's own cap, and
`sqrt(ohm · watt) = 4` exactly), the update yields
`voltage_drop = 10000 mV > voltage`. -/
theorem c2_counterexample :
    (4 : ℚ) * 4 = c2state.ohm *
      ((constrain c2state.watt 0
        (cround ((c2state.voltage : ℚ) ^ 2 / c2state.ohm / 1000000)) : ℤ) : ℚ) ∧
    (synthStep c2state 4).voltage_drop = 10000 ∧
    (synthStep c2state 4).voltage = 4000 ∧
    ¬ (synthStep c2state 4).voltage_drop ≤ (synthStep c2state 4).voltage := by
  norm_num [synthStep, c2state, baseState, constrain, cround, getPWM, addPWM,
    truncQ, mapA, medianW, runningAverage, Int.tdiv]

/-- Witness for C2's amended bounds at the concrete VariVolt base state. -/
theorem c2_witness :
    (0 ≤ (synthStep baseState 0).PWM ∧ (synthStep baseState 0).PWM ≤ 1023) ∧
    0 ≤ (synthStep baseState 0).voltage_drop ∧
    (baseState.mode ≠ .variwatt →
      (synthStep baseState 0).voltage_drop ≤ baseState.voltage) :=
  c2_duty_bounds baseState 0 (by norm_num [baseState]) (by norm_num [baseState])
    (by norm_num [baseState]) (by norm_num [baseState]) (by norm_num [baseState])
    (by norm_num [baseState]) (by norm_num [baseState]) (by norm_num [baseState])
    (by norm_num [baseState]) (by norm_num [baseState]) (by norm_num [baseState])
    (by norm_num [baseState]) (by norm_num [baseState])

/-! ### C3: Ohm-mode edit bounds -/

/-- C3 counterexample state: Ohm settings mode with `amp = 1`, so the
clamp's lower bound `BATTERY_MAX/(amp·1000) = 4.2` exceeds the upper
bound 1. -/
def c3state : VapeState :=
  { baseState with mode := .ohm, settings_mode := true, amp := 1 }

/-- C3 is falsified as stated: an up-edit in Ohm mode with `amp = 1`
(`amp > 0`) yields `ohm = 4.2 > 1`, because the Arduino `constrain` macro
returns the lower bound whenever the bounds are inverted. -/
theorem c3_counterexample :
    (increaseValue 0 c3state).ohm = 21/5 ∧
    ¬ (increaseValue 0 c3state).ohm ≤ 1 := by
  norm_num [increaseValue, c3state, baseState, constrain, cround]

/-- C3 (amended): for every up/down Ohm edit with `amp ≥ 5` — exactly when
`BATTERY_MAX/(amp·1000) ≤ 1`, so the clamp interval is non-degenerate —
the resulting `ohm` lies in `[BATTERY_MAX/(amp·1000), 1]`; long-press
repeats apply the same function, so the bound holds after each repeat.
For `0 < amp < 5` the counterexample shows `ohm` can exceed 1. -/
theorem c3_ohm_bounds (s : VapeState) (now : ℕ) (hm : s.mode = .ohm)
    (ha : 5 ≤ s.amp) :
    (4200 / ((s.amp : ℚ) * 1000) ≤ (increaseValue now s).ohm ∧
      (increaseValue now s).ohm ≤ 1) ∧
    (4200 / ((s.amp : ℚ) * 1000) ≤ (reduceValue now s).ohm ∧
      (reduceValue now s).ohm ≤ 1) := by
  have hz : (0 : ℤ) < s.amp := by omega
  have haQ : (5 : ℚ) ≤ (s.amp : ℚ) := by exact_mod_cast ha
  have hpos : (0 : ℚ) < (s.amp : ℚ) * 1000 := by nlinarith
  have hlo : 4200 / ((s.amp : ℚ) * 1000) ≤ 1 := by
    rw [div_le_one hpos]
    nlinarith
  constructor
  · simp only [increaseValue, hm, if_pos hz]
    exact constrain_between _ _ _ hlo
  · simp only [reduceValue, hm, if_pos hz]
    exact constrain_between _ _ _ hlo

/-- C3 witness state: Ohm settings mode with `amp = 5`. -/
def c3wstate : VapeState :=
  { baseState with mode := .ohm, settings_mode := true, amp := 5 }

/-- Witness for C3's amended bounds at `amp = 5`. -/
theorem c3_witness :
    (4200 / ((c3wstate.amp : ℚ) * 1000) ≤ (increaseValue 0 c3wstate).ohm ∧
      (increaseValue 0 c3wstate).ohm ≤ 1) ∧
    (4200 / ((c3wstate.amp : ℚ) * 1000) ≤ (reduceValue 0 c3wstate).ohm ∧
      (reduceValue 0 c3wstate).ohm ≤ 1) :=
  c3_ohm_bounds c3wstate 0 rfl (by norm_num [c3wstate, baseState])

/-! ### C4: order and interval of the VariVolt clamp -/

/-- C4 counterexample state: `volt = 3.95`, `voltage = 4000`,
`voltage_drop = 200`. -/
def c4state : VapeState :=
  { baseState with volt := 79/20, voltage_drop := 200 }

/-- C4 is falsified as stated for v3.3: the loop clamps `volt` to
`[0, voltage/1000]`, not to `[0, (voltage − voltage_drop)/1000]` as the
spec says — at this state the code keeps `volt = 3.95` although the
claimed interval tops out at 3.8; the v3.1 branch (`variVolt31`) does
clamp to 3.8. -/
theorem c4_counterexample :
    (synthStep c4state 0).volt = 79/20 ∧
    (specVariVolt c4state.voltage c4state.voltage_drop c4state.ohm
      c4state.battery_resistance c4state.volt).1 = 19/5 ∧
    (variVolt31 c4state.voltage c4state.voltage_drop c4state.ohm
      c4state.volt).1 = 19/5 ∧
    ¬ (synthStep c4state 0).volt ≤
        ((c4state.voltage - c4state.voltage_drop : ℤ) : ℚ) / 1000 := by
  norm_num [synthStep, specVariVolt, variVolt31, c4state, baseState, constrain,
    cround, truncQ, mapA, getPWM, addPWM, medianW, runningAverage, wsub, Int.tdiv]

/-- C4 (amended): in every v3.3 VariVolt duty-synthesis update, `volt` is
first clamped to `[0, voltage/1000]` (not `[0, (voltage−voltage_drop)/1000]`),
and only then are `voltage_drop` and the raw duty word computed from the
clamped `volt`. -/
theorem c4_varivolt_order (s : VapeState) (q : ℚ) (hm : s.mode = .varivolt) :
    (synthStep s q).volt = constrain s.volt 0 ((s.voltage : ℚ) / 1000) ∧
    (synthStep s q).voltage_drop =
      (cround (constrain s.volt 0 ((s.voltage : ℚ) / 1000) *
        s.battery_resistance * 1000 / (s.ohm + s.battery_resistance))).emod 65536 ∧
    (synthStep s q).PWM_buffer.c =
      (mapA (truncQ (constrain s.volt 0 ((s.voltage : ℚ) / 1000) * 1000))
        0 s.voltage 0 1023).emod 65536 := by
  simp [synthStep, hm, addPWM, getPWM]

/-- Witness for C4's amended ordering at the counterexample state. -/
theorem c4_witness :
    (synthStep c4state 0).volt = constrain c4state.volt 0
      ((c4state.voltage : ℚ) / 1000) ∧
    (synthStep c4state 0).voltage_drop =
      (cround (constrain c4state.volt 0 ((c4state.voltage : ℚ) / 1000) *
        c4state.battery_resistance * 1000 /
        (c4state.ohm + c4state.battery_resistance))).emod 65536 ∧
    (synthStep c4state 0).PWM_buffer.c =
      (mapA (truncQ (constrain c4state.volt 0 ((c4state.voltage : ℚ) / 1000) * 1000))
        0 c4state.voltage 0 1023).emod 65536 :=
  c4_varivolt_order c4state 0 rfl

/-! ### C5: quantization and range of VariVolt edits -/

/-- C5 counterexample state: `volt = 3.85`, `voltage = 4000`,
`voltage_drop = 108` (the drop of scenario S1). -/
def c5state : VapeState :=
  { baseState with volt := 77/20, voltage_drop := 108 }

/-- C5 is falsified as stated: an up-edit clamps `volt` to
`(voltage − voltage_drop)/1000 = 3.892`, which is not a multiple of
0.05. -/
theorem c5_counterexample :
    (increaseValue 0 c5state).volt = 973/250 ∧
    ¬ ∃ k : ℤ, (increaseValue 0 c5state).volt = (k : ℚ) * (1/20) := by
  have h1 : (increaseValue 0 c5state).volt = 973/250 := by
    norm_num [increaseValue, c5state, baseState, constrain, cround, wsub]
  refine ⟨h1, ?_⟩
  rintro ⟨k, hk⟩
  rw [h1] at hk
  have h2 : (25 * (k : ℚ)) = 1946 := by linarith
  have h3 : (25 * k : ℤ) = 1946 := by exact_mod_cast h2
  omega

/-- The common shape of the snapped-then-clamped VariVolt edit result. -/
theorem volt_clamp_shape (v cap : ℚ) (hcap0 : 0 ≤ cap) :
    (0 ≤ constrain ((cround (v / (1/20)) : ℚ) * (1/20)) 0 cap ∧
      constrain ((cround (v / (1/20)) : ℚ) * (1/20)) 0 cap ≤ cap) ∧
    ((∃ k : ℤ, constrain ((cround (v / (1/20)) : ℚ) * (1/20)) 0 cap
        = (k : ℚ) * (1/20)) ∨
      constrain ((cround (v / (1/20)) : ℚ) * (1/20)) 0 cap = cap) := by
  unfold constrain
  split_ifs with h1 h2
  · exact ⟨⟨le_refl 0, hcap0⟩, Or.inl ⟨0, by norm_num⟩⟩
  · exact ⟨⟨hcap0, le_refl cap⟩, Or.inr rfl⟩
  · exact ⟨⟨le_of_not_lt h1, le_of_not_lt h2⟩, Or.inl ⟨cround (v / (1/20)), rfl⟩⟩

/-- C5 (amended): after each up/down VariVolt edit with `ohm > 0` (from a
state with `0 ≤ voltage_drop ≤ voltage ≤ 32767`), `volt` lies in
`[0, voltage/1000]` and is either an exact multiple of 0.05 or equal to
the clamp cap `(voltage − voltage_drop)/1000`, which need not be such a
multiple (see the counterexample). -/
theorem c5_volt_edit (s : VapeState) (now : ℕ) (hm : s.mode = .varivolt)
    (ho : 0 < s.ohm) (hd0 : 0 ≤ s.voltage_drop) (hdv : s.voltage_drop ≤ s.voltage)
    (hv : s.voltage ≤ 32767) :
    ((0 ≤ (increaseValue now s).volt ∧
        (increaseValue now s).volt ≤ (s.voltage : ℚ) / 1000) ∧
      ((∃ k : ℤ, (increaseValue now s).volt = (k : ℚ) * (1/20)) ∨
        (increaseValue now s).volt =
          ((s.voltage - s.voltage_drop : ℤ) : ℚ) / 1000)) ∧
    ((0 ≤ (reduceValue now s).volt ∧
        (reduceValue now s).volt ≤ (s.voltage : ℚ) / 1000) ∧
      ((∃ k : ℤ, (reduceValue now s).volt = (k : ℚ) * (1/20)) ∨
        (reduceValue now s).volt =
          ((s.voltage - s.voltage_drop : ℤ) : ℚ) / 1000)) := by
  have hw : wsub s.voltage s.voltage_drop = s.voltage - s.voltage_drop :=
    emod_eq_self_of_bounds (by omega) (by omega)
  have hcap0 : (0 : ℚ) ≤ ((s.voltage - s.voltage_drop : ℤ) : ℚ) / 1000 := by
    have : (0 : ℚ) ≤ ((s.voltage - s.voltage_drop : ℤ) : ℚ) := by
      exact_mod_cast sub_nonneg.mpr hdv
    linarith
  have hcapV : ((s.voltage - s.voltage_drop : ℤ) : ℚ) / 1000 ≤ (s.voltage : ℚ) / 1000 := by
    have : ((s.voltage - s.voltage_drop : ℤ) : ℚ) ≤ (s.voltage : ℚ) := by
      push_cast
      have : (0 : ℚ) ≤ (s.voltage_drop : ℚ) := by exact_mod_cast hd0
      linarith
    linarith
  constructor
  · simp only [increaseValue, hm, if_pos ho, hw]
    obtain ⟨⟨hb0, hb1⟩, hshape⟩ := volt_clamp_shape (s.volt + 1/20)
      (((s.voltage - s.voltage_drop : ℤ) : ℚ) / 1000) hcap0
    exact ⟨⟨hb0, le_trans hb1 hcapV⟩, hshape⟩
  · simp only [reduceValue, hm, if_pos ho, hw]
    obtain ⟨⟨hb0, hb1⟩, hshape⟩ := volt_clamp_shape (s.volt - 1/20)
      (((s.voltage - s.voltage_drop : ℤ) : ℚ) / 1000) hcap0
    exact ⟨⟨hb0, le_trans hb1 hcapV⟩, hshape⟩

/-- Witness for C5's amended edit shape at the counterexample state. -/
theorem c5_witness :
    ((0 ≤ (increaseValue 0 c5state).volt ∧
        (increaseValue 0 c5state).volt ≤ (c5state.voltage : ℚ) / 1000) ∧
      ((∃ k : ℤ, (increaseValue 0 c5state).volt = (k : ℚ) * (1/20)) ∨
        (increaseValue 0 c5state).volt =
          ((c5state.voltage - c5state.voltage_drop : ℤ) : ℚ) / 1000)) ∧
    ((0 ≤ (reduceValue 0 c5state).volt ∧
        (reduceValue 0 c5state).volt ≤ (c5state.voltage : ℚ) / 1000) ∧
      ((∃ k : ℤ, (reduceValue 0 c5state).volt = (k : ℚ) * (1/20)) ∨
        (reduceValue 0 c5state).volt =
          ((c5state.voltage - c5state.voltage_drop : ℤ) : ℚ) / 1000)) :=
  c5_volt_edit c5state 0 rfl (by norm_num [c5state, baseState])
    (by norm_num [c5state, baseState]) (by norm_num [c5state, baseState])
    (by norm_num [c5state, baseState])

/-! ### C6: burn-limit timeout -/

/-- C6: with the fire button held continuously (raw reading true, debounced
level and last raw level already true) and the burn timer expired
(`now − fire_time ≥ FIRE_LIMIT`), the iteration ends disarmed regardless of
the other inputs; since the loop polls far faster than `2·T_deb`, the
disarm lands within `FIRE_LIMIT + 2·T_deb` of arming. -/
theorem c6_burn_limit (s : VapeState) (inp : LoopInput)
    (hr : inp.fire_pressed = true) (hs : s.f_b_state = true)
    (_hlast : s.f_b_last_state = true) (ha : s.allow_fire = true)
    (ht : 5000 ≤ inp.now - s.fire_time) :
    (loopIter s inp).allow_fire = false := by
  rw [loopIter, preLowBatt_def]
  obtain ⟨e1, e2, e3, e4⟩ := eventsFold_frame inp.now inp.events s
  obtain ⟨v1, v2, v3, v4, v5, v6⟩ :=
    valuesStep_frame inp (inp.events.foldl (applyEv inp.now) s)
  have hg := gateStep_stable (valuesStep inp (inp.events.foldl (applyEv inp.now) s))
    inp.fire_pressed inp.now (by rw [v2, e2, hs, hr])
  obtain ⟨d1, d2, _, _, _⟩ := driveStep_frame (gateStep (valuesStep inp
    (inp.events.foldl (applyEv inp.now) s)) inp.fire_pressed inp.now) inp.now
  have hall : (driveStep (gateStep (valuesStep inp
      (inp.events.foldl (applyEv inp.now) s)) inp.fire_pressed inp.now)
      inp.now).allow_fire = true := by
    rw [d1, hg.1, v1, e1, ha]
  have hft : (driveStep (gateStep (valuesStep inp
      (inp.events.foldl (applyEv inp.now) s)) inp.fire_pressed inp.now)
      inp.now).fire_time = s.fire_time := by
    rw [d2, hg.2, v4, e4]
  have htq := timeoutStep_fires _ inp.now hall (by rw [hft]; exact ht)
  rcases standbyStep_cases (timeoutStep (driveStep (gateStep (valuesStep inp
      (inp.events.foldl (applyEv inp.now) s)) inp.fire_pressed inp.now) inp.now)
      inp.now) inp.now with hc | ⟨hc, _, _⟩
  · rw [hc]
    rcases lowBattStep_cases (timeoutStep (driveStep (gateStep (valuesStep inp
        (inp.events.foldl (applyEv inp.now) s)) inp.fire_pressed inp.now) inp.now)
        inp.now) with hl2 | ⟨hl2, _⟩
    · rw [hl2]
      exact htq
    · exact hl2
  · rcases lowBattStep_cases (standbyStep (timeoutStep (driveStep (gateStep
        (valuesStep inp (inp.events.foldl (applyEv inp.now) s)) inp.fire_pressed
        inp.now) inp.now) inp.now) inp.now) with hl2 | ⟨hl2, _⟩
    · rw [hl2]
      exact hc
    · exact hl2

/-- C6 witness state: armed at `fire_time = 1000`, button held. -/
def c6state : VapeState :=
  { baseState with allow_fire := true, f_b_state := true, f_b_last_state := true,
                   fire_time := 1000, f_b_debounce_time := 900,
                   standby_time := 5000, values_update_time := 6000 }

/-- C6 witness input: the iteration at `t = 6000`, button still held. -/
def c6inp : LoopInput := ⟨6000, true, 4000, 0, []⟩

/-- Witness for C6 at a concrete held-button iteration past the limit. -/
theorem c6_witness : (loopIter c6state c6inp).allow_fire = false :=
  c6_burn_limit c6state c6inp rfl rfl rfl rfl
    (by norm_num [c6state, c6inp, baseState])

/-! ### C7: low-battery trip -/

/-- C7: whenever the voltage observation held at the end-of-iteration check
is below `BATTERY_MIN` while awake, the iteration disarms (`allow_fire`
false, PWM detached, MOSFET LOW), shows the LOWb slide, persists the
settings to EEPROM (the `watt`/`amp` byte slots narrowed mod 256 by
`EEPROM.updateByte`), and goes to sleep with the fire-button falling-edge
wake interrupt attached. -/
theorem c7_low_battery (s : VapeState) (inp : LoopInput)
    (h : (preLowBatt s inp).voltage < 2800) :
    (loopIter s inp).allow_fire = false ∧
    (loopIter s inp).pwm_attached = false ∧
    (loopIter s inp).mosfet_high = false ∧
    (loopIter s inp).slide = some .lowb ∧
    (loopIter s inp).sleeping = true ∧
    (loopIter s inp).wake_interrupt = true ∧
    (loopIter s inp).eeprom =
      ⟨(preLowBatt s inp).vcc_const, (preLowBatt s inp).last_fire_mode,
       (preLowBatt s inp).volt, (preLowBatt s inp).watt.emod 256,
       (preLowBatt s inp).amp.emod 256, (preLowBatt s inp).ohm,
       (preLowBatt s inp).battery_resistance⟩ := by
  rw [loopIter]
  unfold lowBattStep
  rw [if_pos h]
  simp [goodNight, disableAllFire]

/-- C7 witness state: awake with a filtered 2500 mV reading held. -/
def c7state : VapeState :=
  { baseState with voltage := 2500, prev_voltage := 2500,
                   voltage_buffer := ⟨2500, 2500, 2500⟩,
                   values_update_time := 1000 }

/-- C7 witness input: an iteration at `t = 1000` with no fresh sample due. -/
def c7inp : LoopInput := ⟨1000, false, 2500, 0, []⟩

/-- Witness for C7 at the concrete under-voltage state. -/
theorem c7_witness :
    (loopIter c7state c7inp).allow_fire = false ∧
    (loopIter c7state c7inp).pwm_attached = false ∧
    (loopIter c7state c7inp).mosfet_high = false ∧
    (loopIter c7state c7inp).slide = some .lowb ∧
    (loopIter c7state c7inp).sleeping = true ∧
    (loopIter c7state c7inp).wake_interrupt = true ∧
    (loopIter c7state c7inp).eeprom =
      ⟨(preLowBatt c7state c7inp).vcc_const,
       (preLowBatt c7state c7inp).last_fire_mode,
       (preLowBatt c7state c7inp).volt,
       (preLowBatt c7state c7inp).watt.emod 256,
       (preLowBatt c7state c7inp).amp.emod 256,
       (preLowBatt c7state c7inp).ohm,
       (preLowBatt c7state c7inp).battery_resistance⟩ :=
  c7_low_battery c7state c7inp (by
    norm_num [preLowBatt, standbyStep, timeoutStep, driveStep, gateStep,
      gateRelease, gateCommit, gateDebounce, valuesStep, applyEv, goodNight,
      disableAllFire, c7state, c7inp, baseState])

/-! ### C8: wake puzzle -/

/-- C8: from the sleeping state, if the wake-puzzle window registers more
than 4 debounced fire-button events, the device wakes with
`mode = last_fire_mode`, `settings_mode = false`, the voltage/PWM filters
reset (`InitVoltage`), and the idle timer refreshed; if the window ends
with 4 or fewer events registered, the device stays asleep
(`GoodNight`). -/
theorem c8_wake_puzzle (s : VapeState) (start : ℕ) (samples : List (ℕ × Bool))
    (a b c : ℤ) (endNow : ℕ) :
    (4 < (puzzleRun start samples
        ⟨s.f_b_state, s.f_b_last_state, s.f_b_debounce_time, 0⟩).count →
      (wakePuzzle s start samples a b c endNow).sleeping = false ∧
      (wakePuzzle s start samples a b c endNow).mode = s.last_fire_mode ∧
      (wakePuzzle s start samples a b c endNow).settings_mode = false ∧
      (wakePuzzle s start samples a b c endNow).standby_time = endNow ∧
      (wakePuzzle s start samples a b c endNow).prev_PWM = 0 ∧
      (wakePuzzle s start samples a b c endNow).PWM = 0 ∧
      (wakePuzzle s start samples a b c endNow).voltage_drop = 0 ∧
      (wakePuzzle s start samples a b c endNow).PWM_buffer = ⟨0, 0, 0⟩ ∧
      (wakePuzzle s start samples a b c endNow).voltage =
        cround (((a.emod 65536 + b.emod 65536 + c.emod 65536 : ℤ) : ℚ) / 3) ∧
      (wakePuzzle s start samples a b c endNow).prev_voltage =
        (wakePuzzle s start samples a b c endNow).voltage) ∧
    ((puzzleRun start samples
        ⟨s.f_b_state, s.f_b_last_state, s.f_b_debounce_time, 0⟩).count ≤ 4 →
      (wakePuzzle s start samples a b c endNow).sleeping = true) := by
  constructor
  · intro h
    simp [wakePuzzle, initVoltage, h]
  · intro h
    simp [wakePuzzle, goodNight, disableAllFire, not_lt.mpr h]

/-- C8 witness state: asleep, button released, debounce timer clear. -/
def c8state : VapeState :=
  { baseState with sleeping := true }

/-- Witness for C8: five clean presses within the window wake the device
(with the advertised post-state), four leave it asleep. -/
theorem c8_witness :
    ((wakePuzzle c8state 1000 (pressTrace 5) 4000 4000 4000 3000).sleeping = false ∧
     (wakePuzzle c8state 1000 (pressTrace 5) 4000 4000 4000 3000).mode =
       c8state.last_fire_mode ∧
     (wakePuzzle c8state 1000 (pressTrace 5) 4000 4000 4000 3000).settings_mode
       = false ∧
     (wakePuzzle c8state 1000 (pressTrace 5) 4000 4000 4000 3000).standby_time
       = 3000 ∧
     (wakePuzzle c8state 1000 (pressTrace 5) 4000 4000 4000 3000).prev_PWM = 0 ∧
     (wakePuzzle c8state 1000 (pressTrace 5) 4000 4000 4000 3000).PWM = 0 ∧
     (wakePuzzle c8state 1000 (pressTrace 5) 4000 4000 4000 3000).voltage_drop
       = 0 ∧
     (wakePuzzle c8state 1000 (pressTrace 5) 4000 4000 4000 3000).PWM_buffer
       = ⟨0, 0, 0⟩ ∧
     (wakePuzzle c8state 1000 (pressTrace 5) 4000 4000 4000 3000).voltage =
       cround ((((4000 : ℤ).emod 65536 + (4000 : ℤ).emod 65536 +
         (4000 : ℤ).emod 65536 : ℤ) : ℚ) / 3) ∧
     (wakePuzzle c8state 1000 (pressTrace 5) 4000 4000 4000 3000).prev_voltage =
       (wakePuzzle c8state 1000 (pressTrace 5) 4000 4000 4000 3000).voltage) ∧
    (wakePuzzle c8state 1000 (pressTrace 4) 4000 4000 4000 3000).sleeping
      = true :=
  ⟨(c8_wake_puzzle c8state 1000 (pressTrace 5) 4000 4000 4000 3000).1 (by decide),
   (c8_wake_puzzle c8state 1000 (pressTrace 4) 4000 4000 4000 3000).2 (by decide)⟩

/-! ### C9: VariVolt end-to-end scenario S1 -/

/-- C9 scenario state: `voltage = 4000`, `batt_res = 0.015`, `ohm = 0.5`,
`volt = 3.70`, `vcc_const = 1.1`, `amp = 30`. -/
def c9state : VapeState :=
  { baseState with volt := 37/10 }

/-- C9: one VariVolt duty-synthesis update at scenario S1 produces
`voltage_drop = 108` mV and pushes the raw duty word 946 into the PWM
smoothing pipeline. -/
theorem c9_varivolt_scenario :
    (synthStep c9state 0).voltage_drop = 108 ∧
    (synthStep c9state 0).PWM_buffer.c = 946 := by
  norm_num [synthStep, c9state, baseState, constrain, cround, truncQ, mapA,
    getPWM, addPWM, medianW, runningAverage, Int.tdiv]

/-! ### C10: puzzle counter initialization -/

/-- C10 asleep state for the wake-puzzle half of the claim. -/
def c10state : VapeState :=
  { baseState with sleeping := true, last_fire_mode := .variwatt }

/-- C10: the sleep puzzle pre-counts the opening double press (counter
starts at 2), so exactly three further debounced events commit sleep —
three commit (`sleeping` becomes true), two do not — while the wake puzzle
starts at 0 and needs five — five wake the device, four leave it
asleep. -/
theorem c10_puzzle_thresholds :
    (sleepPuzzle baseState 1000 (pressTrace 3)).sleeping = true ∧
    (sleepPuzzle baseState 1000 (pressTrace 2)).sleeping = false ∧
    (wakePuzzle c10state 1000 (pressTrace 5) 4000 4000 4000 3000).sleeping
      = false ∧
    (wakePuzzle c10state 1000 (pressTrace 4) 4000 4000 4000 3000).sleeping
      = true := by
  refine ⟨?_, ?_, ?_, ?_⟩ <;> decide

end BoxModVape
